import Mathlib

/-
Verification of the FaultNote TUI core: the application state model
(src/app.rs) and the event-dispatch state machine (src/events.rs),
shallowly embedded in Lean.  Rust `String`s are modelled as `List Char`
(push = append at the end, pop = dropLast), `usize` as `Nat`.
-/

namespace FaultNote

/-- Whitespace classification used by Rust's `str::trim`
(`char::is_whitespace`, the Unicode White_Space property),
listed explicitly by code point. -/
def rustIsWhitespace (c : Char) : Bool :=
  let n := c.toNat
  (n == 0x09) || (n == 0x0A) || (n == 0x0B) || (n == 0x0C) || (n == 0x0D) ||
  (n == 0x20) || (n == 0x85) || (n == 0xA0) || (n == 0x1680) ||
  (decide (0x2000 ≤ n) && decide (n ≤ 0x200A)) ||
  (n == 0x2028) || (n == 0x2029) || (n == 0x202F) || (n == 0x205F) ||
  (n == 0x3000)

/-- Rust `str::trim`: remove leading and trailing whitespace. -/
def rustTrim (l : List Char) : List Char :=
  ((l.dropWhile rustIsWhitespace).reverse.dropWhile rustIsWhitespace).reverse

/-- Which major section of the UI has focus (src/app.rs `FocusArea`). -/
inductive FocusArea
  | PageList
  | InputSection
deriving DecidableEq, Repr

/-- Current input mode (src/app.rs `InputMode`). -/
inductive InputMode
  | Normal
  | Editing
deriving DecidableEq, Repr

/-- Simplified Notion page info (src/app.rs `PageInfo`). -/
structure PageInfo where
  id : List Char
  title : List Char
deriving DecidableEq, Repr

/-- Data sent to Notion on submission (src/app.rs `FaultLogEntry`). -/
structure FaultLogEntry where
  error : List Char
  problem : List Char
  solution : List Char
  code : Option (List Char)
deriving DecidableEq, Repr

/-- Main application state (src/app.rs `AppState`). -/
structure AppState where
  running : Bool
  current_focus : FocusArea
  input_mode : InputMode
  notion_pages : List PageInfo
  selected_page_index : Nat
  active_input_field : Nat
  error_input : List Char
  problem_input : List Char
  solution_input : List Char
  code_input : List Char
  status_message : Option (List Char)
  is_loading : Bool
deriving DecidableEq, Repr

namespace AppState

/-- `AppState::new()`. -/
def new : AppState where
  running := true
  current_focus := .PageList
  input_mode := .Normal
  notion_pages := []
  selected_page_index := 0
  active_input_field := 0
  error_input := []
  problem_input := []
  solution_input := []
  code_input := []
  status_message := none
  is_loading := false

/-- `AppState::quit()`. -/
def quit (s : AppState) : AppState :=
  { s with running := false }

/-- `AppState::is_running()`. -/
def is_running (s : AppState) : Bool :=
  s.running

/-- `AppState::toggle_focus()`. -/
def toggle_focus (s : AppState) : AppState :=
  match s.current_focus with
  | .PageList => { s with current_focus := .InputSection }
  | .InputSection => { s with current_focus := .PageList, input_mode := .Normal }

/-- `AppState::is_page_list_focused()`. -/
def is_page_list_focused (s : AppState) : Bool :=
  s.current_focus = .PageList

/-- `AppState::is_input_section_focused()`. -/
def is_input_section_focused (s : AppState) : Bool :=
  s.current_focus = .InputSection

/-- `AppState::next_page()` — wrap-around via `(i + 1) % total`. -/
def next_page (s : AppState) : AppState :=
  if s.notion_pages.isEmpty then s
  else
    { s with selected_page_index :=
        (s.selected_page_index + 1) % s.notion_pages.length }

/-- `AppState::previous_page()` — wrap-around via the explicit zero test. -/
def previous_page (s : AppState) : AppState :=
  if s.notion_pages.isEmpty then s
  else if s.selected_page_index = 0 then
    { s with selected_page_index := s.notion_pages.length - 1 }
  else
    { s with selected_page_index := s.selected_page_index - 1 }

/-- `AppState::get_selected_page()` (`Vec::get`). -/
def get_selected_page (s : AppState) : Option PageInfo :=
  s.notion_pages.get? s.selected_page_index

/-- `AppState::get_selected_page_id()`. -/
def get_selected_page_id (s : AppState) : Option (List Char) :=
  s.get_selected_page.map (fun p => p.id)

/-- `AppState::set_pages(pages)`. -/
def set_pages (s : AppState) (pages : List PageInfo) : AppState :=
  { s with notion_pages := pages, selected_page_index := 0, is_loading := false }

/-- `AppState::page_count()`. -/
def page_count (s : AppState) : Nat :=
  s.notion_pages.length

/-- `AppState::MAX_INPUTS`. -/
def MAX_INPUTS : Nat := 4

/-- `AppState::next_input()`. -/
def next_input (s : AppState) : AppState :=
  { s with active_input_field := (s.active_input_field + 1) % MAX_INPUTS }

/-- `AppState::previous_input()`. -/
def previous_input (s : AppState) : AppState :=
  if s.active_input_field = 0 then
    { s with active_input_field := MAX_INPUTS - 1 }
  else
    { s with active_input_field := s.active_input_field - 1 }

/-- `AppState::enter_edit_mode()` — only when the input section is focused. -/
def enter_edit_mode (s : AppState) : AppState :=
  if s.is_input_section_focused then { s with input_mode := .Editing } else s

/-- `AppState::exit_edit_mode()`. -/
def exit_edit_mode (s : AppState) : AppState :=
  { s with input_mode := .Normal }

/-- `AppState::is_editing()`. -/
def is_editing (s : AppState) : Bool :=
  s.input_mode = .Editing

/-- `AppState::is_normal_mode()`. -/
def is_normal_mode (s : AppState) : Bool :=
  s.input_mode = .Normal

/-- `AppState::get_active_input()` — with the same fallback to the
Error buffer on an out-of-range index as the source. -/
def get_active_input (s : AppState) : List Char :=
  match s.active_input_field with
  | 0 => s.error_input
  | 1 => s.problem_input
  | 2 => s.solution_input
  | 3 => s.code_input
  | _ => s.error_input

/-- Functional counterpart of `AppState::get_active_input_mut()`:
apply `f` to the buffer selected by `active_input_field`, with the same
fallback to the Error buffer as the source. -/
def modify_active_input (s : AppState) (f : List Char → List Char) : AppState :=
  match s.active_input_field with
  | 0 => { s with error_input := f s.error_input }
  | 1 => { s with problem_input := f s.problem_input }
  | 2 => { s with solution_input := f s.solution_input }
  | 3 => { s with code_input := f s.code_input }
  | _ => { s with error_input := f s.error_input }

/-- `AppState::add_char(c)` (`String::push`). -/
def add_char (s : AppState) (c : Char) : AppState :=
  s.modify_active_input (fun l => l ++ [c])

/-- `AppState::delete_char()` (`String::pop`; no-op on an empty buffer). -/
def delete_char (s : AppState) : AppState :=
  s.modify_active_input (fun l => l.dropLast)

/-- `AppState::add_newline()`. -/
def add_newline (s : AppState) : AppState :=
  s.modify_active_input (fun l => l ++ [Char.ofNat 10])

/-- `AppState::clear_inputs()`. -/
def clear_inputs (s : AppState) : AppState :=
  { s with error_input := [], problem_input := [], solution_input := [],
           code_input := [], active_input_field := 0 }

/-- `AppState::get_input_by_index(index)`. -/
def get_input_by_index (s : AppState) (index : Nat) : List Char :=
  match index with
  | 0 => s.error_input
  | 1 => s.problem_input
  | 2 => s.solution_input
  | 3 => s.code_input
  | _ => s.error_input

/-- `AppState::can_submit()`: Error, Problem, Solution non-blank after
trim, and at least one page. -/
def can_submit (s : AppState) : Bool :=
  (!(rustTrim s.error_input).isEmpty) &&
  (!(rustTrim s.problem_input).isEmpty) &&
  (!(rustTrim s.solution_input).isEmpty) &&
  (!s.notion_pages.isEmpty)

/-- `AppState::get_submission_data()`: the `(page_id, FaultLogEntry)` pair,
`none` unless `can_submit` holds and the selected page exists.  Note the
source clones the code buffer unchanged; only the emptiness test trims. -/
def get_submission_data (s : AppState) : Option (List Char × FaultLogEntry) :=
  if s.can_submit then
    match s.get_selected_page with
    | none => none
    | some page =>
        some (page.id,
          { error := s.error_input
            problem := s.problem_input
            solution := s.solution_input
            code := if (rustTrim s.code_input).isEmpty then none
                    else some s.code_input })
  else none

/-- `AppState::start_loading()`. -/
def start_loading (s : AppState) : AppState :=
  { s with is_loading := true,
           status_message := some (("Submitting...").toList) }

/-- `AppState::finish_loading()`. -/
def finish_loading (s : AppState) : AppState :=
  { s with is_loading := false }

/-- `AppState::set_status(message)`. -/
def set_status (s : AppState) (message : List Char) : AppState :=
  { s with status_message := some message }

/-- `AppState::set_success(message)` — prefixes a check glyph and clears
the loading flag. -/
def set_success (s : AppState) (message : List Char) : AppState :=
  { s with status_message := some (Char.ofNat 0x2713 :: ' ' :: message),
           is_loading := false }

/-- `AppState::set_error(message)` — prefixes a cross glyph and clears
the loading flag. -/
def set_error (s : AppState) (message : List Char) : AppState :=
  { s with status_message := some (Char.ofNat 0x2717 :: ' ' :: message),
           is_loading := false }

/-- `AppState::clear_status()`. -/
def clear_status (s : AppState) : AppState :=
  { s with status_message := none }

/-- `AppState::get_status()`. -/
def get_status (s : AppState) : Option (List Char) :=
  s.status_message

/-- `AppState::has_status()`. -/
def has_status (s : AppState) : Bool :=
  s.status_message.isSome

/-- `AppState::handle_up()`. -/
def handle_up (s : AppState) : AppState :=
  match s.current_focus with
  | .PageList => s.previous_page
  | .InputSection => s.previous_input

/-- `AppState::handle_down()`. -/
def handle_down (s : AppState) : AppState :=
  match s.current_focus with
  | .PageList => s.next_page
  | .InputSection => s.next_input

end AppState

/-- Key codes the dispatcher distinguishes (src/events.rs; the
crossterm `KeyCode` variants the handlers match on, every other key
collapsed into `other`). -/
inductive KeyCode
  | char (c : Char)
  | enter
  | tab
  | esc
  | backspace
  | up
  | down
  | other
deriving DecidableEq, Repr

open AppState in
/-- `handle_normal_mode` (src/events.rs): the Normal-mode key→action
table.  The Enter branch is the source's current stub: it validates via
`can_submit` and only reports status. -/
def handle_normal_mode (s : AppState) (k : KeyCode) : AppState :=
  match k with
  | .char c =>
      if c = 'q' ∨ c = 'Q' then s.quit
      else if c = 'k' then s.handle_up
      else if c = 'j' then s.handle_down
      else if c = 'e' ∨ c = 'i' then s.enter_edit_mode
      else if c = 'c' then
        (s.clear_inputs).set_status (("Inputs cleared").toList)
      else s
  | .tab => s.toggle_focus
  | .up => s.handle_up
  | .down => s.handle_down
  | .enter =>
      if s.can_submit then
        s.set_status (("Ready to submit! (async not connected yet)").toList)
      else
        s.set_error (("Fill in Error, Problem, and Solution fields first").toList)
  | .esc => s.clear_status
  | _ => s

open AppState in
/-- `handle_editing_mode` (src/events.rs): the Editing-mode key→action
table. -/
def handle_editing_mode (s : AppState) (k : KeyCode) : AppState :=
  match k with
  | .esc => s.exit_edit_mode
  | .char c => s.add_char c
  | .backspace => s.delete_char
  | .enter => s.add_newline
  | .tab => ((s.exit_edit_mode).next_input).enter_edit_mode
  | .up => (s.exit_edit_mode).previous_input
  | .down => (s.exit_edit_mode).next_input
  | _ => s

/-- `handle_key_event` (src/events.rs): route by `is_editing`. -/
def handle_key_event (s : AppState) (k : KeyCode) : AppState :=
  if s.is_editing then handle_editing_mode s k else handle_normal_mode s k

/-- Outcome of the remote append call (§4.3: success, or a failure
surfaced as a human-readable message). -/
inductive RemoteResult
  | ok
  | failure (msg : List Char)
deriving DecidableEq, Repr

/-- Observation record for one run of the submission sequence: the state
after the sequence, the `(page_id, entry)` pair the collaborator's append
operation was invoked with (`none` when it was not invoked), and the value
of the loading flag at the moment of that call. -/
structure SubmitOutcome where
  final : AppState
  call : Option (List Char × FaultLogEntry)
  loadingDuringCall : Bool
deriving Repr

open AppState in
/-- Modelled from the spec: the Submission Sequence of §4.2, steps 1–7.
The implementation invoked by `main.rs` (`events::handle_events(app,
notion_client).await`, an async two-argument handler that performs the
submission) is not under src/; src/events.rs holds only a stub Enter
branch marked `TODO: Trigger async submission`.  The collaborator is
abstracted by its availability and by the result its append operation
returns.  Steps: validate via `can_submit`; require a collaborator;
`get_submission_data`; `start_loading`; invoke append; on success
`set_success` then `clear_inputs`, on failure `set_error` with the
buffers left untouched. -/
def submission_sequence (clientAvailable : Bool) (result : RemoteResult)
    (s : AppState) : SubmitOutcome :=
  if !s.can_submit then
    { final := s.set_error (("fill required fields").toList),
      call := none, loadingDuringCall := false }
  else if !clientAvailable then
    { final := s.set_error (("remote not connected").toList),
      call := none, loadingDuringCall := false }
  else
    match s.get_submission_data with
    | none =>
        { final := s.set_error (("internal: nothing to submit").toList),
          call := none, loadingDuringCall := false }
    | some (pageId, entry) =>
        let s1 := s.start_loading
        match result with
        | .ok =>
            { final := (s1.set_success (("Entry added").toList)).clear_inputs,
              call := some (pageId, entry),
              loadingDuringCall := s1.is_loading }
        | .failure msg =>
            { final := s1.set_error msg,
              call := some (pageId, entry),
              loadingDuringCall := s1.is_loading }

/-- The public mutators of `AppState` (every `pub fn` of src/app.rs that
takes `&mut self`), as one action type for reachability. -/
inductive Mutator
  | quit
  | toggle_focus
  | next_page
  | previous_page
  | set_pages (pages : List PageInfo)
  | next_input
  | previous_input
  | enter_edit_mode
  | exit_edit_mode
  | add_char (c : Char)
  | delete_char
  | add_newline
  | clear_inputs
  | start_loading
  | finish_loading
  | set_status (m : List Char)
  | set_success (m : List Char)
  | set_error (m : List Char)
  | clear_status
  | handle_up
  | handle_down

/-- Apply one public mutator. -/
def applyMutator : Mutator → AppState → AppState
  | .quit, s => s.quit
  | .toggle_focus, s => s.toggle_focus
  | .next_page, s => s.next_page
  | .previous_page, s => s.previous_page
  | .set_pages pages, s => s.set_pages pages
  | .next_input, s => s.next_input
  | .previous_input, s => s.previous_input
  | .enter_edit_mode, s => s.enter_edit_mode
  | .exit_edit_mode, s => s.exit_edit_mode
  | .add_char c, s => s.add_char c
  | .delete_char, s => s.delete_char
  | .add_newline, s => s.add_newline
  | .clear_inputs, s => s.clear_inputs
  | .start_loading, s => s.start_loading
  | .finish_loading, s => s.finish_loading
  | .set_status m, s => s.set_status m
  | .set_success m, s => s.set_success m
  | .set_error m, s => s.set_error m
  | .clear_status, s => s.clear_status
  | .handle_up, s => s.handle_up
  | .handle_down, s => s.handle_down

/-- States reachable from `AppState.new` by public mutators. -/
inductive Reachable : AppState → Prop
  | init : Reachable AppState.new
  | step {s : AppState} (m : Mutator) : Reachable s → Reachable (applyMutator m s)

/-- Invariant I3: Editing mode only while the input section is focused. -/
def invariantI3 (s : AppState) : Prop :=
  s.input_mode = .Editing → s.current_focus = .InputSection

/-! Concrete sample states used by witnesses and counterexamples. -/

/-- A sample page. -/
def pageA : PageInfo := { id := ("p1").toList, title := ("Page 1").toList }

/-- A second sample page. -/
def pageB : PageInfo := { id := ("p2").toList, title := ("Page 2").toList }

/-- A third sample page. -/
def pageC : PageInfo := { id := ("p3").toList, title := ("Page 3").toList }

/-- A state with one page and the three required fields filled, code
holding text with surrounding whitespace. -/
def filledState : AppState :=
  { AppState.new with
      notion_pages := [pageA]
      error_input := ("e").toList
      problem_input := ("p").toList
      solution_input := ("s").toList
      code_input := (" x ").toList }

/-- A state with three pages and selection at index 0. -/
def threePageState : AppState :=
  { AppState.new with notion_pages := [pageA, pageB, pageC] }

/-- A state focused on the input section and in Editing mode. -/
def editingState : AppState :=
  { AppState.new with
      current_focus := .InputSection
      input_mode := .Editing }

/-! Projection helper lemmas. -/

namespace AppState

theorem modify_active_input_running (s : AppState) (f : List Char → List Char) :
    (s.modify_active_input f).running = s.running := by
  unfold modify_active_input; split <;> rfl

theorem modify_active_input_mode (s : AppState) (f : List Char → List Char) :
    (s.modify_active_input f).input_mode = s.input_mode := by
  unfold modify_active_input; split <;> rfl

theorem modify_active_input_focus (s : AppState) (f : List Char → List Char) :
    (s.modify_active_input f).current_focus = s.current_focus := by
  unfold modify_active_input; split <;> rfl

theorem next_page_pages (s : AppState) :
    (s.next_page).notion_pages = s.notion_pages := by
  unfold next_page; split <;> rfl

theorem next_page_mode (s : AppState) :
    (s.next_page).input_mode = s.input_mode := by
  unfold next_page; split <;> rfl

theorem next_page_focus (s : AppState) :
    (s.next_page).current_focus = s.current_focus := by
  unfold next_page; split <;> rfl

theorem next_page_running (s : AppState) :
    (s.next_page).running = s.running := by
  unfold next_page; split <;> rfl

theorem previous_page_pages (s : AppState) :
    (s.previous_page).notion_pages = s.notion_pages := by
  unfold previous_page; split <;> [rfl; skip]; split <;> rfl

theorem previous_page_mode (s : AppState) :
    (s.previous_page).input_mode = s.input_mode := by
  unfold previous_page; split <;> [rfl; skip]; split <;> rfl

theorem previous_page_focus (s : AppState) :
    (s.previous_page).current_focus = s.current_focus := by
  unfold previous_page; split <;> [rfl; skip]; split <;> rfl

theorem previous_page_running (s : AppState) :
    (s.previous_page).running = s.running := by
  unfold previous_page; split <;> [rfl; skip]; split <;> rfl

theorem previous_input_mode (s : AppState) :
    (s.previous_input).input_mode = s.input_mode := by
  unfold previous_input; split <;> rfl

theorem previous_input_focus (s : AppState) :
    (s.previous_input).current_focus = s.current_focus := by
  unfold previous_input; split <;> rfl

theorem previous_input_running (s : AppState) :
    (s.previous_input).running = s.running := by
  unfold previous_input; split <;> rfl

theorem enter_edit_mode_running (s : AppState) :
    (s.enter_edit_mode).running = s.running := by
  unfold enter_edit_mode; split <;> rfl

theorem enter_edit_mode_focus (s : AppState) :
    (s.enter_edit_mode).current_focus = s.current_focus := by
  unfold enter_edit_mode; split <;> rfl

theorem handle_up_mode (s : AppState) :
    (s.handle_up).input_mode = s.input_mode := by
  unfold handle_up; split
  · exact previous_page_mode s
  · exact previous_input_mode s

theorem handle_up_focus (s : AppState) :
    (s.handle_up).current_focus = s.current_focus := by
  unfold handle_up; split
  · exact previous_page_focus s
  · exact previous_input_focus s

theorem handle_up_running (s : AppState) :
    (s.handle_up).running = s.running := by
  unfold handle_up; split
  · exact previous_page_running s
  · exact previous_input_running s

theorem handle_down_mode (s : AppState) :
    (s.handle_down).input_mode = s.input_mode := by
  unfold handle_down; split
  · exact next_page_mode s
  · rfl

theorem handle_down_focus (s : AppState) :
    (s.handle_down).current_focus = s.current_focus := by
  unfold handle_down; split
  · exact next_page_focus s
  · rfl

theorem handle_down_running (s : AppState) :
    (s.handle_down).running = s.running := by
  unfold handle_down; split
  · exact next_page_running s
  · rfl

end AppState

/-- For `can_submit = true` with the selection index in range,
`get_submission_data` returns the selected page's id and the entry
snapshot, code untrimmed and `none` when the code buffer trims empty. -/
theorem get_submission_data_eq_some (s : AppState)
    (h1 : s.can_submit = true)
    (h2 : s.selected_page_index < s.notion_pages.length) :
    s.get_submission_data =
      some ((s.notion_pages.get ⟨s.selected_page_index, h2⟩).id,
        { error := s.error_input
          problem := s.problem_input
          solution := s.solution_input
          code := if (rustTrim s.code_input).isEmpty then none
                  else some s.code_input }) := by
  unfold AppState.get_submission_data AppState.get_selected_page
  rw [h1, List.get?_eq_get h2]
  simp

/-- C4: `can_submit()` is true iff Error, Problem and Solution are
non-blank after trimming and the target list is non-empty; the Code
buffer never affects the result. -/
theorem spec_c4_can_submit (s : AppState) :
    (s.can_submit = true ↔
      (rustTrim s.error_input ≠ [] ∧ rustTrim s.problem_input ≠ [] ∧
       rustTrim s.solution_input ≠ [] ∧ s.notion_pages ≠ [])) ∧
    (∀ c : List Char,
      ({ s with code_input := c } : AppState).can_submit = s.can_submit) := by
  constructor
  · unfold AppState.can_submit
    simp [List.isEmpty_iff, and_assoc]
  · intro c
    rfl

/-- C4 witness: the `can_submit` characterisation applied at
`filledState`. -/
theorem spec_c4_witness :
    (filledState.can_submit = true ↔
      (rustTrim filledState.error_input ≠ [] ∧
       rustTrim filledState.problem_input ≠ [] ∧
       rustTrim filledState.solution_input ≠ [] ∧
       filledState.notion_pages ≠ [])) ∧
    ({ filledState with code_input := ("zzz").toList } : AppState).can_submit =
      filledState.can_submit :=
  ⟨(spec_c4_can_submit filledState).1,
   (spec_c4_can_submit filledState).2 (("zzz").toList)⟩

/-- C3 counterexample: with the code buffer holding text surrounded by
whitespace, `get_submission_data` returns the code buffer unchanged,
not trimmed as the claim states. -/
theorem spec_c3_cex :
    filledState.get_submission_data =
      some ((("p1").toList),
        { error := ("e").toList, problem := ("p").toList,
          solution := ("s").toList, code := some ((" x ").toList) }) ∧
    filledState.get_submission_data ≠
      some ((("p1").toList),
        { error := ("e").toList, problem := ("p").toList,
          solution := ("s").toList, code := some (("x").toList) }) := by
  constructor
  · decide
  · decide

/-- C3 (amended): `build_submission()` returns none unless `can_submit()`
is true; when `can_submit()` is true and the selection index is in range
it returns the selected target's id and an Entry whose error, problem and
solution fields are the corresponding buffers and whose code field is the
Code buffer unchanged, represented as none when the Code buffer is empty
after trimming.  The operation is a pure function of the state (it is
embedded as `AppState → Option _`), so it mutates nothing. -/
theorem spec_c3_build_submission (s : AppState) :
    (s.can_submit = false → s.get_submission_data = none) ∧
    (∀ _h1 : s.can_submit = true,
      ∀ h2 : s.selected_page_index < s.notion_pages.length,
      s.get_submission_data =
        some ((s.notion_pages.get ⟨s.selected_page_index, h2⟩).id,
          { error := s.error_input
            problem := s.problem_input
            solution := s.solution_input
            code := if (rustTrim s.code_input).isEmpty then none
                    else some s.code_input })) := by
  constructor
  · intro h
    unfold AppState.get_submission_data
    rw [h]
    rfl
  · intro h1 h2
    exact get_submission_data_eq_some s h1 h2

/-- C3 witness: the amended theorem applied at `filledState`. -/
theorem spec_c3_witness :
    filledState.get_submission_data =
      some ((("p1").toList),
        { error := ("e").toList, problem := ("p").toList,
          solution := ("s").toList, code := some ((" x ").toList) }) := by
  have h := (spec_c3_build_submission filledState).2 (by decide) (by decide)
  simpa using h

/-- One `next_page` step on a non-empty list advances circularly. -/
theorem next_page_index (s : AppState) (h : s.notion_pages ≠ []) :
    (s.next_page).selected_page_index =
      (s.selected_page_index + 1) % s.notion_pages.length := by
  unfold AppState.next_page
  have he : s.notion_pages.isEmpty = false := by
    simpa [List.isEmpty_iff] using h
  rw [he]
  simp

/-- One `previous_page` step on a non-empty list with an in-range index
moves to `(i + n - 1) % n`. -/
theorem previous_page_index (s : AppState) (h : s.notion_pages ≠ [])
    (h2 : s.selected_page_index < s.notion_pages.length) :
    (s.previous_page).selected_page_index =
      (s.selected_page_index + s.notion_pages.length - 1) %
        s.notion_pages.length := by
  unfold AppState.previous_page
  have he : s.notion_pages.isEmpty = false := by
    simpa [List.isEmpty_iff] using h
  have hn : 0 < s.notion_pages.length := by
    cases hl : s.notion_pages with
    | nil => exact absurd hl h
    | cons a l => simp [hl]
  rw [he]
  by_cases h0 : s.selected_page_index = 0
  · simp only [h0, if_pos rfl, Bool.false_eq_true, if_false]
    have : (0 + s.notion_pages.length - 1) % s.notion_pages.length =
        s.notion_pages.length - 1 := by
      rw [Nat.zero_add, Nat.mod_eq_of_lt (by omega)]
    simp [this]
  · simp only [if_neg h0, Bool.false_eq_true, if_false]
    have hrw : s.selected_page_index + s.notion_pages.length - 1 =
        (s.selected_page_index - 1) + s.notion_pages.length := by omega
    rw [hrw, Nat.add_mod_right, Nat.mod_eq_of_lt (by omega)]

/-- Iterating `next_page` preserves the page list. -/
theorem iterate_next_page_pages (s : AppState) (k : Nat) :
    (AppState.next_page^[k] s).notion_pages = s.notion_pages := by
  induction k with
  | zero => rfl
  | succ k ih =>
      rw [Function.iterate_succ_apply', AppState.next_page_pages, ih]

/-- Index after `k + 1` iterations of `next_page` on a non-empty list. -/
theorem iterate_next_page_index (s : AppState) (h : s.notion_pages ≠ [])
    (k : Nat) :
    (AppState.next_page^[k + 1] s).selected_page_index =
      (s.selected_page_index + k + 1) % s.notion_pages.length := by
  induction k with
  | zero => simpa using next_page_index s h
  | succ k ih =>
      rw [Function.iterate_succ_apply']
      have hpages := iterate_next_page_pages s (k + 1)
      have hne : (AppState.next_page^[k + 1] s).notion_pages ≠ [] := by
        rw [hpages]; exact h
      rw [next_page_index _ hne, hpages, ih, Nat.mod_add_mod]
      congr 1

/-- C7: with n ≥ 1 targets and an in-range index, n `next_page` steps
return the selection to its start; single steps move circularly
(`(i + 1) % n` forward, `(i + n - 1) % n` backward); `previous_page` at
index 0 with 3 targets yields index 2. -/
theorem spec_c7_navigation_cyclic :
    (∀ s : AppState, s.notion_pages ≠ [] →
      s.selected_page_index < s.notion_pages.length →
      (AppState.next_page^[s.notion_pages.length] s).selected_page_index =
        s.selected_page_index) ∧
    (∀ s : AppState, s.notion_pages ≠ [] →
      (s.next_page).selected_page_index =
        (s.selected_page_index + 1) % s.notion_pages.length) ∧
    (∀ s : AppState, s.notion_pages ≠ [] →
      s.selected_page_index < s.notion_pages.length →
      (s.previous_page).selected_page_index =
        (s.selected_page_index + s.notion_pages.length - 1) %
          s.notion_pages.length) ∧
    (threePageState.previous_page).selected_page_index = 2 := by
  refine ⟨?_, ?_, ?_, ?_⟩
  · intro s h h2
    have hn : 0 < s.notion_pages.length := by
      cases hl : s.notion_pages with
      | nil => exact absurd hl h
      | cons a l => simp [hl]
    have hiter := iterate_next_page_index s h (s.notion_pages.length - 1)
    have hk : s.notion_pages.length - 1 + 1 = s.notion_pages.length := by omega
    rw [hk] at hiter
    rw [hiter]
    have : s.selected_page_index + (s.notion_pages.length - 1) + 1 =
        s.selected_page_index + s.notion_pages.length := by omega
    rw [this, Nat.add_mod_right, Nat.mod_eq_of_lt h2]
  · exact fun s h => next_page_index s h
  · exact fun s h h2 => previous_page_index s h h2
  · decide

/-- C7 witness: the cyclic-navigation theorem applied at the concrete
three-page state. -/
theorem spec_c7_witness :
    (AppState.next_page^[3] threePageState).selected_page_index = 0 ∧
    (threePageState.next_page).selected_page_index = 1 ∧
    (threePageState.previous_page).selected_page_index = 2 := by
  refine ⟨?_, ?_, spec_c7_navigation_cyclic.2.2.2⟩
  · have h := spec_c7_navigation_cyclic.1 threePageState (by decide) (by decide)
    simpa using h
  · have h := spec_c7_navigation_cyclic.2.1 threePageState (by decide)
    simpa using h

/-- C8: navigation never panics and preserves I1/I2 — on an empty list
`next_page`/`previous_page` are no-ops (the Lean embeddings are total
functions, mirroring the absence of panicking operations in the source);
`next_input` always lands in `{0,1,2,3}`, `previous_input` stays there,
and on a non-empty list both page moves stay inside `[0, n)`. -/
theorem spec_c8_navigation_safe :
    (∀ s : AppState, s.notion_pages = [] →
      s.next_page = s ∧ s.previous_page = s) ∧
    (∀ s : AppState, (s.next_input).active_input_field < 4) ∧
    (∀ s : AppState, s.active_input_field < 4 →
      (s.previous_input).active_input_field < 4) ∧
    (∀ s : AppState, s.notion_pages ≠ [] →
      (s.next_page).selected_page_index < s.notion_pages.length) ∧
    (∀ s : AppState, s.notion_pages ≠ [] →
      s.selected_page_index < s.notion_pages.length →
      (s.previous_page).selected_page_index < s.notion_pages.length) := by
  refine ⟨?_, ?_, ?_, ?_, ?_⟩
  · intro s h
    have he : s.notion_pages.isEmpty = true := by simp [List.isEmpty_iff, h]
    constructor
    · unfold AppState.next_page; rw [he]; rfl
    · unfold AppState.previous_page; rw [he]; rfl
  · intro s
    unfold AppState.next_input
    exact Nat.mod_lt _ (by decide)
  · intro s h
    unfold AppState.previous_input
    split
    · show AppState.MAX_INPUTS - 1 < 4
      decide
    · show s.active_input_field - 1 < 4
      omega
  · intro s h
    have hn : 0 < s.notion_pages.length := by
      cases hl : s.notion_pages with
      | nil => exact absurd hl h
      | cons a l => simp [hl]
    rw [next_page_index s h]
    exact Nat.mod_lt _ hn
  · intro s h h2
    have hn : 0 < s.notion_pages.length := by
      cases hl : s.notion_pages with
      | nil => exact absurd hl h
      | cons a l => simp [hl]
    rw [previous_page_index s h h2]
    exact Nat.mod_lt _ hn

/-- C8 witness: the safety theorem applied at the empty initial state and
at the concrete three-page state. -/
theorem spec_c8_witness :
    (AppState.new.next_page = AppState.new ∧
      AppState.new.previous_page = AppState.new) ∧
    (threePageState.next_input).active_input_field < 4 ∧
    (threePageState.previous_input).active_input_field < 4 ∧
    (threePageState.next_page).selected_page_index <
      threePageState.notion_pages.length ∧
    (threePageState.previous_page).selected_page_index <
      threePageState.notion_pages.length :=
  ⟨spec_c8_navigation_safe.1 AppState.new rfl,
   spec_c8_navigation_safe.2.1 threePageState,
   spec_c8_navigation_safe.2.2.1 threePageState (by decide),
   spec_c8_navigation_safe.2.2.2.1 threePageState (by decide),
   spec_c8_navigation_safe.2.2.2.2 threePageState (by decide) (by decide)⟩

/-- I3 only depends on `input_mode` and `current_focus`. -/
theorem invariantI3_congr {s t : AppState} (h1 : t.input_mode = s.input_mode)
    (h2 : t.current_focus = s.current_focus) (h : invariantI3 s) :
    invariantI3 t := by
  intro he
  rw [h2]
  exact h (by rw [← h1]; exact he)

/-- Every public mutator preserves invariant I3. -/
theorem applyMutator_invariantI3 (m : Mutator) (s : AppState)
    (h : invariantI3 s) : invariantI3 (applyMutator m s) := by
  cases m with
  | quit => exact invariantI3_congr rfl rfl h
  | toggle_focus =>
      show invariantI3 s.toggle_focus
      unfold AppState.toggle_focus
      cases hf : s.current_focus with
      | PageList => intro _; rfl
      | InputSection => intro he; simp at he
  | next_page =>
      exact invariantI3_congr (AppState.next_page_mode s)
        (AppState.next_page_focus s) h
  | previous_page =>
      exact invariantI3_congr (AppState.previous_page_mode s)
        (AppState.previous_page_focus s) h
  | set_pages pages => exact invariantI3_congr rfl rfl h
  | next_input => exact invariantI3_congr rfl rfl h
  | previous_input =>
      exact invariantI3_congr (AppState.previous_input_mode s)
        (AppState.previous_input_focus s) h
  | enter_edit_mode =>
      show invariantI3 s.enter_edit_mode
      unfold AppState.enter_edit_mode
      split
      · rename_i hc
        simp [AppState.is_input_section_focused] at hc
        intro _
        exact hc
      · exact h
  | exit_edit_mode =>
      intro he
      simp [applyMutator, AppState.exit_edit_mode] at he
  | add_char c =>
      exact invariantI3_congr (AppState.modify_active_input_mode s _)
        (AppState.modify_active_input_focus s _) h
  | delete_char =>
      exact invariantI3_congr (AppState.modify_active_input_mode s _)
        (AppState.modify_active_input_focus s _) h
  | add_newline =>
      exact invariantI3_congr (AppState.modify_active_input_mode s _)
        (AppState.modify_active_input_focus s _) h
  | clear_inputs => exact invariantI3_congr rfl rfl h
  | start_loading => exact invariantI3_congr rfl rfl h
  | finish_loading => exact invariantI3_congr rfl rfl h
  | set_status m => exact invariantI3_congr rfl rfl h
  | set_success m => exact invariantI3_congr rfl rfl h
  | set_error m => exact invariantI3_congr rfl rfl h
  | clear_status => exact invariantI3_congr rfl rfl h
  | handle_up =>
      exact invariantI3_congr (AppState.handle_up_mode s)
        (AppState.handle_up_focus s) h
  | handle_down =>
      exact invariantI3_congr (AppState.handle_down_mode s)
        (AppState.handle_down_focus s) h

/-- I3 holds in every reachable state. -/
theorem reachable_invariantI3 {s : AppState} (h : Reachable s) :
    invariantI3 s := by
  induction h with
  | init => intro he; exact absurd he (by decide)
  | step m _ ih => exact applyMutator_invariantI3 m _ ih

/-- C6: in every state reachable from the initial state by public
mutators, I3 holds (Editing implies InputSection focus); moreover
`enter_edit_mode` leaves the mode at Normal when the page list is
focused, and `toggle_focus` leaving the input section always returns the
mode to Normal. -/
theorem spec_c6_invariant_I3 (s : AppState) (h : Reachable s) :
    invariantI3 s ∧
    (s.current_focus = .PageList →
      (s.enter_edit_mode).input_mode = .Normal) ∧
    (s.current_focus = .InputSection →
      (s.toggle_focus).input_mode = .Normal) := by
  have hI3 := reachable_invariantI3 h
  refine ⟨hI3, ?_, ?_⟩
  · intro hf
    have hmode : s.input_mode = .Normal := by
      cases hm : s.input_mode with
      | Normal => rfl
      | Editing =>
          have hc := hI3 hm
          rw [hf] at hc
          exact absurd hc (by decide)
    unfold AppState.enter_edit_mode
    split
    · rename_i hc
      simp [AppState.is_input_section_focused, hf] at hc
    · exact hmode
  · intro hf
    unfold AppState.toggle_focus
    simp [hf]

/-- C6 witness: the invariant theorem applied at the initial state. -/
theorem spec_c6_witness :
    invariantI3 AppState.new ∧
    (AppState.new.current_focus = .PageList →
      (AppState.new.enter_edit_mode).input_mode = .Normal) ∧
    (AppState.new.current_focus = .InputSection →
      (AppState.new.toggle_focus).input_mode = .Normal) :=
  spec_c6_invariant_I3 AppState.new Reachable.init

/-- In Editing mode the dispatcher routes to `handle_editing_mode`. -/
theorem handle_key_event_editing (s : AppState)
    (hm : s.input_mode = .Editing) (k : KeyCode) :
    handle_key_event s k = handle_editing_mode s k := by
  unfold handle_key_event
  simp [AppState.is_editing, hm]

/-- In Normal mode the dispatcher routes to `handle_normal_mode`. -/
theorem handle_key_event_normal (s : AppState)
    (hm : s.input_mode = .Normal) (k : KeyCode) :
    handle_key_event s k = handle_normal_mode s k := by
  unfold handle_key_event
  simp [AppState.is_editing, hm]

/-- C9: in Editing mode, Tab performs exit-edit, field-forward, re-enter
edit (landing in Editing mode on the next field when the input section
is focused), while Up and Down perform exit-edit plus a field move and
leave the state in Normal mode. -/
theorem spec_c9_editing_tab_updown (s : AppState)
    (hm : s.input_mode = .Editing) :
    handle_key_event s .tab =
      ((s.exit_edit_mode).next_input).enter_edit_mode ∧
    (s.current_focus = .InputSection →
      (handle_key_event s .tab).input_mode = .Editing ∧
      (handle_key_event s .tab).active_input_field =
        (s.active_input_field + 1) % 4) ∧
    handle_key_event s .up = (s.exit_edit_mode).previous_input ∧
    (handle_key_event s .up).input_mode = .Normal ∧
    handle_key_event s .down = (s.exit_edit_mode).next_input ∧
    (handle_key_event s .down).input_mode = .Normal := by
  have htab := handle_key_event_editing s hm .tab
  have hup := handle_key_event_editing s hm .up
  have hdown := handle_key_event_editing s hm .down
  refine ⟨htab, ?_, hup, ?_, hdown, ?_⟩
  · intro hf
    rw [htab]
    show (((s.exit_edit_mode).next_input).enter_edit_mode).input_mode =
        .Editing ∧
      (((s.exit_edit_mode).next_input).enter_edit_mode).active_input_field =
        (s.active_input_field + 1) % 4
    unfold AppState.enter_edit_mode
    split
    · exact ⟨rfl, rfl⟩
    · rename_i hc
      simp [AppState.is_input_section_focused, AppState.next_input,
        AppState.exit_edit_mode, hf] at hc
  · rw [hup, show handle_editing_mode s .up =
      (s.exit_edit_mode).previous_input from rfl]
    rw [AppState.previous_input_mode]
    rfl
  · rw [hdown]
    rfl

/-- C9 witness: the editing-navigation theorem applied at a concrete
editing state. -/
theorem spec_c9_witness :
    handle_key_event editingState .tab =
      ((editingState.exit_edit_mode).next_input).enter_edit_mode ∧
    (editingState.current_focus = .InputSection →
      (handle_key_event editingState .tab).input_mode = .Editing ∧
      (handle_key_event editingState .tab).active_input_field =
        (editingState.active_input_field + 1) % 4) ∧
    handle_key_event editingState .up =
      (editingState.exit_edit_mode).previous_input ∧
    (handle_key_event editingState .up).input_mode = .Normal ∧
    handle_key_event editingState .down =
      (editingState.exit_edit_mode).next_input ∧
    (handle_key_event editingState .down).input_mode = .Normal :=
  spec_c9_editing_tab_updown editingState rfl

/-- C10: while in Editing mode no key ever changes the running flag, and
the quit key of Normal mode is treated as a printable character appended
to the active field buffer. -/
theorem spec_c10_no_quit_in_editing (s : AppState)
    (hm : s.input_mode = .Editing) :
    (∀ k : KeyCode, (handle_key_event s k).running = s.running) ∧
    handle_key_event s (.char 'q') = s.add_char 'q' := by
  constructor
  · intro k
    rw [handle_key_event_editing s hm k]
    cases k with
    | char c => exact AppState.modify_active_input_running s _
    | enter => exact AppState.modify_active_input_running s _
    | tab =>
        show ((((s.exit_edit_mode).next_input).enter_edit_mode)).running =
          s.running
        rw [AppState.enter_edit_mode_running]
        rfl
    | esc => rfl
    | backspace => exact AppState.modify_active_input_running s _
    | up =>
        show (((s.exit_edit_mode).previous_input)).running = s.running
        rw [AppState.previous_input_running]
        rfl
    | down => rfl
    | other => rfl
  · rw [handle_key_event_editing s hm (.char 'q')]
    rfl

/-- C10 witness: the theorem applied at a concrete editing state. -/
theorem spec_c10_witness :
    (∀ k : KeyCode,
      (handle_key_event editingState k).running = editingState.running) ∧
    handle_key_event editingState (.char 'q') =
      editingState.add_char 'q' :=
  spec_c10_no_quit_in_editing editingState rfl

/-- C5: in Normal mode with `can_submit` false, the submit key sets the
validation error status, leaves the loading flag false, and changes
nothing else. -/
theorem spec_c5_reject_invalid_submit (s : AppState)
    (hm : s.input_mode = .Normal) (hc : s.can_submit = false) :
    handle_key_event s .enter =
      s.set_error
        (("Fill in Error, Problem, and Solution fields first").toList) ∧
    (handle_key_event s .enter).is_loading = false ∧
    (handle_key_event s .enter).status_message =
      some (Char.ofNat 0x2717 :: ' ' ::
        ("Fill in Error, Problem, and Solution fields first").toList) ∧
    (handle_key_event s .enter).error_input = s.error_input ∧
    (handle_key_event s .enter).problem_input = s.problem_input ∧
    (handle_key_event s .enter).solution_input = s.solution_input ∧
    (handle_key_event s .enter).code_input = s.code_input ∧
    (handle_key_event s .enter).current_focus = s.current_focus ∧
    (handle_key_event s .enter).input_mode = s.input_mode ∧
    (handle_key_event s .enter).notion_pages = s.notion_pages ∧
    (handle_key_event s .enter).selected_page_index =
      s.selected_page_index ∧
    (handle_key_event s .enter).active_input_field =
      s.active_input_field ∧
    (handle_key_event s .enter).running = s.running := by
  have h1 : handle_key_event s .enter =
      s.set_error
        (("Fill in Error, Problem, and Solution fields first").toList) := by
    rw [handle_key_event_normal s hm .enter]
    show (if s.can_submit then _ else _) = _
    rw [hc]
    rfl
  refine ⟨h1, ?_, ?_, ?_, ?_, ?_, ?_, ?_, ?_, ?_, ?_, ?_, ?_⟩ <;>
    rw [h1] <;> rfl

/-- C5 witness: the rejection theorem applied at the fresh initial state,
where all required fields are empty. -/
theorem spec_c5_witness :
    handle_key_event AppState.new .enter =
      AppState.new.set_error
        (("Fill in Error, Problem, and Solution fields first").toList) ∧
    (handle_key_event AppState.new .enter).is_loading = false ∧
    (handle_key_event AppState.new .enter).status_message =
      some (Char.ofNat 0x2717 :: ' ' ::
        ("Fill in Error, Problem, and Solution fields first").toList) ∧
    (handle_key_event AppState.new .enter).error_input =
      AppState.new.error_input ∧
    (handle_key_event AppState.new .enter).problem_input =
      AppState.new.problem_input ∧
    (handle_key_event AppState.new .enter).solution_input =
      AppState.new.solution_input ∧
    (handle_key_event AppState.new .enter).code_input =
      AppState.new.code_input ∧
    (handle_key_event AppState.new .enter).current_focus =
      AppState.new.current_focus ∧
    (handle_key_event AppState.new .enter).input_mode =
      AppState.new.input_mode ∧
    (handle_key_event AppState.new .enter).notion_pages =
      AppState.new.notion_pages ∧
    (handle_key_event AppState.new .enter).selected_page_index =
      AppState.new.selected_page_index ∧
    (handle_key_event AppState.new .enter).active_input_field =
      AppState.new.active_input_field ∧
    (handle_key_event AppState.new .enter).running =
      AppState.new.running :=
  spec_c5_reject_invalid_submit AppState.new rfl (by decide)

/-- Shape of one successful run of the submission sequence. -/
theorem submission_sequence_ok (s : AppState) (p : List Char × FaultLogEntry)
    (h1 : s.can_submit = true) (hg : s.get_submission_data = some p) :
    submission_sequence true .ok s =
      { final :=
          ((s.start_loading).set_success (("Entry added").toList)).clear_inputs,
        call := some p,
        loadingDuringCall := true } := by
  unfold submission_sequence
  rw [h1, hg]
  rfl

/-- Shape of one failing run of the submission sequence. -/
theorem submission_sequence_failure (s : AppState)
    (p : List Char × FaultLogEntry) (msg : List Char)
    (h1 : s.can_submit = true) (hg : s.get_submission_data = some p) :
    submission_sequence true (.failure msg) s =
      { final := (s.start_loading).set_error msg,
        call := some p,
        loadingDuringCall := true } := by
  unfold submission_sequence
  rw [h1, hg]
  rfl

/-- C1: with `can_submit` true (and the selected index in range, so the
sequence reaches the append step), the submit action starts loading
(`loadingDuringCall` records the flag at the append call), invokes the
collaborator's append with exactly the pair `build_submission` returns,
and on success sets a Success status and empties all four buffers. -/
theorem spec_c1_submit_success (s : AppState)
    (h1 : s.can_submit = true)
    (h2 : s.selected_page_index < s.notion_pages.length) :
    (submission_sequence true .ok s).loadingDuringCall = true ∧
    (submission_sequence true .ok s).call = s.get_submission_data ∧
    s.get_submission_data.isSome = true ∧
    (submission_sequence true .ok s).final.status_message =
      some (Char.ofNat 0x2713 :: ' ' :: ("Entry added").toList) ∧
    (submission_sequence true .ok s).final.error_input = [] ∧
    (submission_sequence true .ok s).final.problem_input = [] ∧
    (submission_sequence true .ok s).final.solution_input = [] ∧
    (submission_sequence true .ok s).final.code_input = [] := by
  have hg := get_submission_data_eq_some s h1 h2
  have hrun := submission_sequence_ok s _ h1 hg
  rw [hrun]
  refine ⟨rfl, ?_, ?_, rfl, rfl, rfl, rfl, rfl⟩
  · rw [hg]
  · rw [hg]
    rfl

/-- C1 witness: the success theorem applied at `filledState`. -/
theorem spec_c1_witness :
    (submission_sequence true .ok filledState).loadingDuringCall = true ∧
    (submission_sequence true .ok filledState).call =
      filledState.get_submission_data ∧
    filledState.get_submission_data.isSome = true ∧
    (submission_sequence true .ok filledState).final.status_message =
      some (Char.ofNat 0x2713 :: ' ' :: ("Entry added").toList) ∧
    (submission_sequence true .ok filledState).final.error_input = [] ∧
    (submission_sequence true .ok filledState).final.problem_input = [] ∧
    (submission_sequence true .ok filledState).final.solution_input = [] ∧
    (submission_sequence true .ok filledState).final.code_input = [] :=
  spec_c1_submit_success filledState (by decide) (by decide)

/-- C2: when the sequence reaches the append step and the append fails,
the status becomes the Error-prefixed failure message, the loading flag
is cleared, and all four buffers hold exactly what they held before. -/
theorem spec_c2_submit_failure (s : AppState) (msg : List Char)
    (h1 : s.can_submit = true)
    (h2 : s.selected_page_index < s.notion_pages.length) :
    (submission_sequence true (.failure msg) s).call =
      s.get_submission_data ∧
    (submission_sequence true (.failure msg) s).final.status_message =
      some (Char.ofNat 0x2717 :: ' ' :: msg) ∧
    (submission_sequence true (.failure msg) s).final.is_loading = false ∧
    (submission_sequence true (.failure msg) s).final.error_input =
      s.error_input ∧
    (submission_sequence true (.failure msg) s).final.problem_input =
      s.problem_input ∧
    (submission_sequence true (.failure msg) s).final.solution_input =
      s.solution_input ∧
    (submission_sequence true (.failure msg) s).final.code_input =
      s.code_input ∧
    (submission_sequence true (.failure msg) s).final.active_input_field =
      s.active_input_field := by
  have hg := get_submission_data_eq_some s h1 h2
  have hrun := submission_sequence_failure s _ msg h1 hg
  rw [hrun]
  refine ⟨?_, rfl, rfl, rfl, rfl, rfl, rfl, rfl⟩
  rw [hg]

/-- C2 witness: the failure theorem applied at `filledState` with a
concrete failure message. -/
theorem spec_c2_witness :
    (submission_sequence true (.failure (("network error").toList))
        filledState).call = filledState.get_submission_data ∧
    (submission_sequence true (.failure (("network error").toList))
        filledState).final.status_message =
      some (Char.ofNat 0x2717 :: ' ' :: ("network error").toList) ∧
    (submission_sequence true (.failure (("network error").toList))
        filledState).final.is_loading = false ∧
    (submission_sequence true (.failure (("network error").toList))
        filledState).final.error_input = filledState.error_input ∧
    (submission_sequence true (.failure (("network error").toList))
        filledState).final.problem_input = filledState.problem_input ∧
    (submission_sequence true (.failure (("network error").toList))
        filledState).final.solution_input = filledState.solution_input ∧
    (submission_sequence true (.failure (("network error").toList))
        filledState).final.code_input = filledState.code_input ∧
    (submission_sequence true (.failure (("network error").toList))
        filledState).final.active_input_field =
      filledState.active_input_field :=
  spec_c2_submit_failure filledState (("network error").toList)
    (by decide) (by decide)

end FaultNote
